import Mathlib

/-!
Shallow embedding of the `petra-plugin-wallet-adapter` repository
(`src/errors.ts` and `src/index.ts`), together with theorems settling
the behavioural claims about its error table, error remapping,
transaction-submission fallback, payload validation, and the
v2-to-v1 raw-transaction dispatch of `signTransaction`.

Untyped JavaScript values that can appear in option objects and in the
`code` property of thrown errors are modelled by `JsValue`; JS objects
whose exact key set matters (the `options` argument) are modelled as
association lists (`JsObject`).  Fallible facade methods return
`Except ThrownValue _`; the list of provider calls a method performed
and whether it emitted a `console.warn` diagnostic are returned
alongside the result so that retry/warning behaviour is provable.
-/

/-- Model of the untyped JavaScript values flowing through the adapter:
numbers, strings, `undefined`, and `NaN` (the result of a failed
`Number()` coercion). -/
inductive JsValue where
  | num (n : Int)
  | str (s : String)
  | undefined
  | nan
  deriving DecidableEq

/-- A JavaScript object modelled as an association list from property
names to values; a property whose value is `JsValue.undefined` is a property
that is present but set to `undefined`. -/
abbrev JsObject := List (String × JsValue)

/-- JavaScript truthiness for the modelled value domain: `0`, `""`,
`undefined` and `NaN` are falsy, everything else is truthy. -/
def truthy : JsValue → Bool
  | .num n => n != 0
  | .str s => s != ""
  | .undefined => false
  | .nan => false

/-- Tests `v === undefined`. -/
def isUndefined : JsValue → Bool
  | .undefined => true
  | _ => false

/-- Model of the JavaScript `Number()` coercion on the modelled value
domain (decimal integer strings; other strings coerce to `NaN`, which is
faithful for every string except exotic forms such as hex literals). -/
def jsNumber : JsValue → JsValue
  | .num n => .num n
  | .str s =>
    if s = "" then .num 0
    else
      match s.toInt? with
      | some n => .num n
      | none => .nan
  | .undefined => .nan
  | .nan => .nan

/-- Reads property `k` of object `o`; an absent property reads as
`undefined`, as in JavaScript. -/
def getProp (o : JsObject) (k : String) : JsValue :=
  match o.find? (fun p => p.1 == k) with
  | some p => p.2
  | none => .undefined

/-- Object-spread semantics for `\x7b ...base, ...over \x7d`: every key of
`over` overrides the same key of `base`. -/
def spreadInto (base over : JsObject) : JsObject :=
  base.filter (fun p => !(over.any (fun q => q.1 == p.1))) ++ over

/-- Embeds the `PetraApiError` class of `src/errors.ts`: a numeric code,
a short status label, and a human-readable message.  (`PetraApiError`
extends the JS `Error` class, so its instances pass `instanceof Error`.) -/
structure PetraApiError where
  code : Int
  status : String
  message : String
  deriving DecidableEq

/-- Entry `INTERNAL_ERROR` of the frozen `PetraApiErrors` table. -/
def PetraApiErrors.INTERNAL_ERROR : PetraApiError :=
  ⟨-30001, "Internal Error", "Internal Error"⟩

/-- Entry `NO_ACCOUNTS` of the frozen `PetraApiErrors` table. -/
def PetraApiErrors.NO_ACCOUNTS : PetraApiError :=
  ⟨4000, "No Accounts", "No accounts found"⟩

/-- Entry `TIME_OUT` of the frozen `PetraApiErrors` table. -/
def PetraApiErrors.TIME_OUT : PetraApiError :=
  ⟨4002, "Time Out",
   "The prompt timed out without a response. This could be because the user did not respond or because a new request was opened."⟩

/-- Entry `UNAUTHORIZED` of the frozen `PetraApiErrors` table. -/
def PetraApiErrors.UNAUTHORIZED : PetraApiError :=
  ⟨4100, "Unauthorized",
   "The requested method and/or account has not been authorized by the user."⟩

/-- Entry `UNSUPPORTED` of the frozen `PetraApiErrors` table. -/
def PetraApiErrors.UNSUPPORTED : PetraApiError :=
  ⟨4200, "Unsupported", "The provider does not support the requested method."⟩

/-- Entry `USER_REJECTION` of the frozen `PetraApiErrors` table. -/
def PetraApiErrors.USER_REJECTION : PetraApiError :=
  ⟨4001, "Rejected", "The user rejected the request"⟩

/-- Embeds `Object.values(PetraApiErrors)` in the insertion order of the
frozen object literal of `src/errors.ts`. -/
def petraApiErrorsValues : List PetraApiError :=
  [PetraApiErrors.INTERNAL_ERROR,
   PetraApiErrors.NO_ACCOUNTS,
   PetraApiErrors.TIME_OUT,
   PetraApiErrors.UNAUTHORIZED,
   PetraApiErrors.UNSUPPORTED,
   PetraApiErrors.USER_REJECTION]

/-- JavaScript strict equality `v === n` between an arbitrary value and a
number: true exactly when `v` is the same number. -/
def jsStrictEqNum (v : JsValue) (n : Int) : Bool :=
  match v with
  | .num m => m == n
  | _ => false

/-- Embeds `codeToError` of `src/errors.ts`:
`Object.values(PetraApiErrors).find((error) => error.code === code) ?? INTERNAL_ERROR`.
The argument is a `JsValue` because `remapPetraError` calls it with the
untyped `code` property of an arbitrary thrown object. -/
def codeToError (code : JsValue) : PetraApiError :=
  (petraApiErrorsValues.find? (fun error => jsStrictEqNum code error.code)).getD
    PetraApiErrors.INTERNAL_ERROR

/-- An arbitrary error rejected by a provider call: whether a `code`
property is present (and its value), whether the value is an `instanceof
Error`, and its `message`. -/
structure ProviderError where
  code : Option JsValue
  isErrorInstance : Bool
  message : String
  deriving DecidableEq

/-- A value thrown out of a facade method: a structured `PetraApiError`,
the original provider error rethrown unchanged, or a plain thrown string
such as the address-info / invalid-payload messages. -/
inductive ThrownValue where
  | petra (e : PetraApiError)
  | provider (e : ProviderError)
  | jsString (s : String)
  deriving DecidableEq

/-- Embeds `remapPetraError` of `src/index.ts`: when a `code` property is
present (`"code" in error`) the structured error for that code is thrown,
otherwise the original error is rethrown unchanged. -/
def remapPetraError (error : ProviderError) : ThrownValue :=
  match error.code with
  | some v => .petra (codeToError v)
  | none => .provider error

/-- The ASCII single-quote character, written by code point so the text
of the compatibility-detection message below can be stated literally. -/
def singleQuote : String := String.singleton (Char.ofNat 39)

/-- The exact message of the `TypeError` raised by Petra versions older
than 1.2.27 when they receive the options-wrapped argument object:
`Cannot read properties of undefined (reading 'map')`. -/
def objectPropsUnsupportedMessage : String :=
  "Cannot read properties of undefined (reading " ++ singleQuote ++ "map" ++
    singleQuote ++ ")"

/-- Embeds `isObjectPropsUnsupportedError` of `src/index.ts` on the raw
provider error: `err instanceof Error && err.message === "Cannot read
properties of undefined (reading ...)"`. -/
def isObjectPropsUnsupportedError (err : ProviderError) : Bool :=
  err.isErrorInstance && err.message == objectPropsUnsupportedMessage

/-- The `isObjectPropsUnsupportedError` test applied to whichever value a
facade method actually rethrows: a `PetraApiError` is an `Error`
instance, a thrown plain string is not. -/
def isObjectPropsUnsupportedThrown : ThrownValue → Bool
  | .petra e => e.message == objectPropsUnsupportedMessage
  | .provider e => isObjectPropsUnsupportedError e
  | .jsString _ => false

/-- The concrete old-Petra `TypeError` that triggers the compatibility
fallback: an `Error` instance carrying the detection message and no
`code` property. -/
def objectPropsUnsupportedTypeError : ProviderError :=
  ⟨none, true, objectPropsUnsupportedMessage⟩

/-- Embeds `areOptionsEmpty` of `src/index.ts`: options are empty when
the argument is `undefined`, has no keys, or all its values are
`undefined`. -/
def areOptionsEmpty : Option JsObject → Bool
  | none => true
  | some options =>
    options.length == 0 || options.all (fun p => isUndefined p.2)

/-- Embeds `remapTransactionOptions` of `src/index.ts`: derives
`maxGasAmount` / `gasUnitPrice` numbers from the snake-cased v1 fields
when those are truthy, then spreads the original options over them. -/
def remapTransactionOptions (options : JsObject) : JsObject :=
  spreadInto
    [("maxGasAmount",
      if truthy (getProp options "max_gas_amount") then
        jsNumber (getProp options "max_gas_amount")
      else .undefined),
     ("gasUnitPrice",
      if truthy (getProp options "gas_unit_price") then
        jsNumber (getProp options "gas_unit_price")
      else .undefined)]
    options

/-- The opaque v1 BCS transaction payload
(`TxnBuilderTypes.TransactionPayload`, an external SDK value the facade
passes through unchanged). -/
structure TransactionPayloadV1 where
  id : Nat
  deriving DecidableEq

/-- The opaque v1 JSON transaction payload (`Types.TransactionPayload`,
an external SDK value the facade passes through unchanged). -/
structure TransactionPayloadJson where
  id : Nat
  deriving DecidableEq

/-- The provider response for a submitted transaction. -/
structure SubmitResult where
  hash : String
  deriving DecidableEq

/-- The shapes with which `signAndSubmitBCSTransaction` can invoke
`provider.signAndSubmitTransaction`: the options-wrapped single object
argument, or the bare payload. -/
inductive BCSSubmitCall where
  | withOptions (payload : TransactionPayloadV1) (options : JsObject)
  | bare (payload : TransactionPayloadV1)
  deriving DecidableEq

/-- Embeds `PetraWallet.signAndSubmitBCSTransaction` of `src/index.ts`.
Besides the returned/thrown value it records the provider calls made (in
order) and whether the `console.warn` compatibility diagnostic fired.
When `areOptionsEmpty` is false the options are necessarily a present
object, so the `getD []` default is never taken. -/
def PetraWallet.signAndSubmitBCSTransaction
    (provider : BCSSubmitCall → Except ProviderError SubmitResult)
    (payload : TransactionPayloadV1) (options : Option JsObject) :
    Except ThrownValue SubmitResult × List BCSSubmitCall × Bool :=
  if areOptionsEmpty options then
    match provider (.bare payload) with
    | .ok r => (.ok r, [.bare payload], false)
    | .error e => (.error (remapPetraError e), [.bare payload], false)
  else
    let firstCall : BCSSubmitCall :=
      .withOptions payload (remapTransactionOptions (options.getD []))
    match provider firstCall with
    | .ok r => (.ok r, [firstCall], false)
    | .error e =>
      let thrown := remapPetraError e
      if isObjectPropsUnsupportedThrown thrown then
        match provider (.bare payload) with
        | .ok r => (.ok r, [firstCall, .bare payload], true)
        | .error e2 =>
          (.error (remapPetraError e2), [firstCall, .bare payload], true)
      else
        (.error thrown, [firstCall], false)

/-- A call to `provider.signAndSubmitTransaction` as issued by the v1
path of `PetraWallet.signAndSubmitTransaction`: payload and options are
passed as two separate arguments. -/
structure V1SubmitCall where
  payload : TransactionPayloadJson
  options : Option JsObject
  deriving DecidableEq

/-- Embeds the v1 branch of `PetraWallet.signAndSubmitTransaction`
(`src/index.ts` lines 119-125): a single provider call with the payload
and, when `optionsV1` is truthy, the remapped options as a second
argument; any rejection is remapped and thrown.  There is no retry and
no warning on this path. -/
def PetraWallet.signAndSubmitTransactionV1Path
    (provider : V1SubmitCall → Except ProviderError SubmitResult)
    (payloadV1 : TransactionPayloadJson) (optionsV1 : Option JsObject) :
    Except ThrownValue SubmitResult × List V1SubmitCall × Bool :=
  let call : V1SubmitCall :=
    ⟨payloadV1,
     match optionsV1 with
     | some o => some (remapTransactionOptions o)
     | none => none⟩
  match provider call with
  | .ok r => (.ok r, [call], false)
  | .error e => (.error (remapPetraError e), [call], false)

/-- The account info returned by the provider: a hex address and an
optional public key. -/
structure AccountInfo where
  address : String
  publicKey : Option String
  deriving DecidableEq

/-- Embeds `PetraWallet.connect` of `src/index.ts`: a rejection is
remapped; a falsy resolved value (modelled `none`) raises the plain
string `"Petra Address Info Error"`; otherwise the provider value is
returned unchanged. -/
def PetraWallet.connect
    (providerResult : Except ProviderError (Option AccountInfo)) :
    Except ThrownValue AccountInfo :=
  match providerResult with
  | .error e => .error (remapPetraError e)
  | .ok none => .error (.jsString "Petra Address Info Error")
  | .ok (some addressInfo) => .ok addressInfo

/-- Embeds `PetraWallet.account` of `src/index.ts`: as `connect`, with
the plain string `"Petra Account Error"`. -/
def PetraWallet.account
    (providerResult : Except ProviderError (Option AccountInfo)) :
    Except ThrownValue AccountInfo :=
  match providerResult with
  | .error e => .error (remapPetraError e)
  | .ok none => .error (.jsString "Petra Account Error")
  | .ok (some response) => .ok response

/-- The response of `provider.signMessage`. -/
structure SignMessageResponse where
  signature : String
  deriving DecidableEq

/-- The argument passed to `PetraWallet.signMessage`: either a value
whose `typeof` is not `"object"`, or an object whose `nonce` property
(`undefined` when absent) and `message` property are recorded. -/
inductive SignMessageInput where
  | nonObject (value : JsValue)
  | obj (nonce : JsValue) (message : JsValue)
  deriving DecidableEq

/-- Embeds `PetraWallet.signMessage` of `src/index.ts`: inputs that are
not objects, or whose `nonce` is falsy, raise the plain string
`"Petra Invalid signMessage Payload"` before the provider is invoked;
the boolean records whether `provider.signMessage` was called. -/
def PetraWallet.signMessage
    (provider : SignMessageInput → Except ProviderError SignMessageResponse)
    (message : SignMessageInput) :
    Except ThrownValue SignMessageResponse × Bool :=
  match message with
  | .nonObject _ => (.error (.jsString "Petra Invalid signMessage Payload"), false)
  | .obj nonce _ =>
    if truthy nonce then
      match provider message with
      | .ok r => (.ok r, true)
      | .error e => (.error (remapPetraError e), true)
    else
      (.error (.jsString "Petra Invalid signMessage Payload"), false)

/-- The observable effect of one account-change event on a callback
registered through `PetraWallet.onAccountChange`: whether the facade
invoked `connect()` internally before informing the callback, and the
value the callback received. -/
structure AccountChangeDelivery where
  connectInvoked : Bool
  callbackArgument : AccountInfo
  deriving DecidableEq

/-- Embeds `PetraWallet.onAccountChange` of `src/index.ts` (lines
231-233): the facade registers the given callback with
`provider.onAccountChange` unchanged, so delivering an event invokes the
user callback directly on that event and performs no facade call. -/
def PetraWallet.onAccountChangeDelivery (event : AccountInfo) :
    AccountChangeDelivery :=
  { connectInvoked := false, callbackArgument := event }

/-- A v2 (`@aptos-labs/ts-sdk`) account address, carried as its
canonical 32-byte sequence. -/
structure AccountAddressV2 where
  data : List Nat
  deriving DecidableEq

/-- A v1 (`aptos` legacy SDK) account address, carried as its canonical
32-byte sequence. -/
structure AccountAddressV1 where
  address : List Nat
  deriving DecidableEq

/-- A v2 raw transaction, carried as its BCS byte sequence. -/
structure RawTransactionV2 where
  bytes : List Nat
  deriving DecidableEq

/-- A v1 raw transaction, carried as its BCS byte sequence. -/
structure RawTransactionV1 where
  bytes : List Nat
  deriving DecidableEq

/-- A v2 account authenticator, carried as its BCS byte sequence. -/
structure AccountAuthenticatorV2 where
  bytes : List Nat
  deriving DecidableEq

/-- A v1 account authenticator, carried as its BCS byte sequence. -/
structure AccountAuthenticatorV1 where
  bytes : List Nat
  deriving DecidableEq

/-- The fixed byte width of an account address. -/
def addressByteLength : Nat := 32

/-- Modelled from the spec: `convertV1toV2` of the missing
`src/conversion.ts`, at target shape `AccountAddress` — reinterprets a
v1 address as its v2 counterpart by copying the canonical byte sequence,
and fails if the byte length does not match the target shape's expected
width. -/
def convertV1toV2Address (x : AccountAddressV1) : Option AccountAddressV2 :=
  if x.address.length = addressByteLength then some ⟨x.address⟩ else none

/-- Modelled from the spec: `convertV2toV1` of the missing
`src/conversion.ts`, at target shape `TxnBuilderTypes.AccountAddress` —
the inverse byte-copying reinterpretation, with the same width check. -/
def convertV2toV1Address (x : AccountAddressV2) : Option AccountAddressV1 :=
  if x.data.length = addressByteLength then some ⟨x.data⟩ else none

/-- Modelled from the spec: `convertV1toV2` of the missing
`src/conversion.ts` at a variable-width target shape (raw transaction) —
a pure byte-copying reinterpretation, never a recomputation. -/
def convertV1toV2RawTransaction (x : RawTransactionV1) : RawTransactionV2 :=
  ⟨x.bytes⟩

/-- Modelled from the spec: `convertV2toV1` of the missing
`src/conversion.ts` at target shape `TxnBuilderTypes.RawTransaction`. -/
def convertV2toV1RawTransaction (x : RawTransactionV2) : RawTransactionV1 :=
  ⟨x.bytes⟩

/-- Modelled from the spec: `convertV1toV2` of the missing
`src/conversion.ts` at target shape `AccountAuthenticator`. -/
def convertV1toV2Authenticator (x : AccountAuthenticatorV1) :
    AccountAuthenticatorV2 :=
  ⟨x.bytes⟩

/-- Modelled from the spec: `convertV2toV1` of the missing
`src/conversion.ts` at the v1 authenticator shape. -/
def convertV2toV1Authenticator (x : AccountAuthenticatorV2) :
    AccountAuthenticatorV1 :=
  ⟨x.bytes⟩

/-- The numeric value of a hexadecimal digit character, if it is one. -/
def hexCharVal (c : Char) : Option Nat :=
  if 48 ≤ c.toNat ∧ c.toNat ≤ 57 then some (c.toNat - 48)
  else if 97 ≤ c.toNat ∧ c.toNat ≤ 102 then some (c.toNat - 97 + 10)
  else if 65 ≤ c.toNat ∧ c.toNat ≤ 70 then some (c.toNat - 65 + 10)
  else none

/-- Decodes an even-length list of hexadecimal digit characters into
bytes, two characters per byte. -/
def hexPairsToBytes : List Char → Option (List Nat)
  | [] => some []
  | [_] => none
  | c1 :: c2 :: rest => do
    let hi ← hexCharVal c1
    let lo ← hexCharVal c2
    let tail ← hexPairsToBytes rest
    pure ((hi * 16 + lo) :: tail)

/-- Model of the external v1 SDK call
`TxnBuilderTypes.AccountAddress.fromHex`, which `signTransaction` uses to
turn the connected account's hex address string into a v1 address: strip
an optional `0x` prefix, left-pad to an even number of digits, decode,
and left-pad the bytes to the 32-byte address width; invalid or oversized
input makes the SDK throw (modelled `none`). -/
def accountAddressFromHex (address : String) : Option (List Nat) :=
  let digits :=
    match address.toList with
    | '0' :: 'x' :: rest => rest
    | chars => chars
  let digits := if digits.length % 2 == 1 then '0' :: digits else digits
  match hexPairsToBytes digits with
  | none => none
  | some bytes =>
    if bytes.length ≤ addressByteLength then
      some (List.replicate (addressByteLength - bytes.length) 0 ++ bytes)
    else none

/-- The v2 `AnyRawTransaction` argument of `signTransaction`: the raw
transaction, an optional list of secondary signer addresses (`none` when
the field is absent, `some []` when it is present but empty), and an
optional fee-payer address. -/
structure AnyRawTransactionV2 where
  rawTransaction : RawTransactionV2
  secondarySignerAddresses : Option (List AccountAddressV2)
  feePayerAddress : Option AccountAddressV2
  deriving DecidableEq

/-- The three v1 raw-transaction variants `signTransaction` can build
before forwarding to the provider. -/
inductive RawTxnVariantV1 where
  | raw (txn : RawTransactionV1)
  | multiAgent (txn : RawTransactionV1) (secondarySigners : List AccountAddressV1)
  | feePayer (txn : RawTransactionV1) (secondarySigners : List AccountAddressV1)
      (payer : AccountAddressV1)
  deriving DecidableEq

/-- Embeds the v2 branch of `PetraWallet.signTransaction`
(`src/index.ts` lines 167-203): converts the raw transaction and the
secondary signer addresses to v1 shape, then selects the fee-payer,
multi-agent, or plain variant.  The boolean records whether
`this.account()` was awaited (the `asFeePayer` resolution); `none`
models the exception a failed conversion or an invalid account address
would raise in the JS code. -/
def PetraWallet.signTransactionV2
    (transaction : AnyRawTransactionV2) (asFeePayer : Bool)
    (activeAccount : AccountInfo) : Option (RawTxnVariantV1 × Bool) :=
  let rawTxnV1 := convertV2toV1RawTransaction transaction.rawTransaction
  let secondaryOpt : Option (Option (List AccountAddressV1)) :=
    match transaction.secondarySignerAddresses with
    | none => some none
    | some addrs =>
      match addrs.mapM convertV2toV1Address with
      | some converted => some (some converted)
      | none => none
  match secondaryOpt with
  | none => none
  | some secondarySignersAddressesV1 =>
    if asFeePayer then
      match accountAddressFromHex activeAccount.address with
      | none => none
      | some payerBytes =>
        some (.feePayer rawTxnV1 (secondarySignersAddressesV1.getD [])
          ⟨payerBytes⟩, true)
    else
      match transaction.feePayerAddress with
      | some fp =>
        match convertV2toV1Address fp with
        | none => none
        | some feePayerAddressV1 =>
          some (.feePayer rawTxnV1 (secondarySignersAddressesV1.getD [])
            feePayerAddressV1, false)
      | none =>
        match secondarySignersAddressesV1 with
        | some signers => some (.multiAgent rawTxnV1 signers, false)
        | none => some (.raw rawTxnV1, false)

/-- C1: for every numeric code, `codeToError` returns the unique entry of the
fixed six-entry error table whose `code` field equals it — in particular 4001
returns the entry with status `"Rejected"` and message
`"The user rejected the request"` — and every code matching no entry (such as
9999) returns the `INTERNAL_ERROR` entry, whose code is -30001. -/
theorem codeToError_table_lookup :
    (∀ e₁ ∈ petraApiErrorsValues, ∀ e₂ ∈ petraApiErrorsValues,
       e₁.code = e₂.code → e₁ = e₂) ∧
    (∀ (n : Int) (e : PetraApiError), e ∈ petraApiErrorsValues → e.code = n →
       codeToError (.num n) = e) ∧
    codeToError (.num 4001) = PetraApiErrors.USER_REJECTION ∧
    PetraApiErrors.USER_REJECTION.status = "Rejected" ∧
    PetraApiErrors.USER_REJECTION.message = "The user rejected the request" ∧
    (∀ n : Int, (∀ e ∈ petraApiErrorsValues, e.code ≠ n) →
       codeToError (.num n) = PetraApiErrors.INTERNAL_ERROR) ∧
    codeToError (.num 9999) = PetraApiErrors.INTERNAL_ERROR ∧
    PetraApiErrors.INTERNAL_ERROR.code = -30001 := by
  refine ⟨by decide, ?_, by decide, by decide, by decide, ?_, by decide, by decide⟩
  · intro n e he hc
    subst hc
    fin_cases he <;> decide
  · intro n h
    have hnone : petraApiErrorsValues.find?
        (fun error => jsStrictEqNum (.num n) error.code) = none := by
      apply List.find?_eq_none.mpr
      intro e he
      simp only [jsStrictEqNum, beq_iff_eq]
      exact fun hh => (h e he) hh.symm
    simp [codeToError, hnone]

/-- Witness for C1: the lookup equation at the in-table code 4000 and the
no-match equation at the out-of-table code 123. -/
theorem codeToError_table_lookup_witness :
    codeToError (.num 4000) = PetraApiErrors.NO_ACCOUNTS ∧
    codeToError (.num 123) = PetraApiErrors.INTERNAL_ERROR :=
  ⟨codeToError_table_lookup.2.1 4000 PetraApiErrors.NO_ACCOUNTS (by decide) rfl,
   codeToError_table_lookup.2.2.2.2.2.1 123 (by decide)⟩

/-- A provider error carrying a non-numeric `code` property. -/
def nonNumericCodeError : ProviderError :=
  ⟨some (.str "oops"), false, "boom"⟩

/-- C4 counterexample: an error object whose `code` field is the string
`"oops"` is not re-thrown unchanged, contrary to the claim — `remapPetraError`
translates it to the structured `INTERNAL_ERROR` entry, because `"code" in
error` only tests presence and the table lookup then finds no match. -/
theorem remapPetraError_nonNumeric_code_cex :
    remapPetraError nonNumericCodeError =
      ThrownValue.petra PetraApiErrors.INTERNAL_ERROR ∧
    ThrownValue.petra PetraApiErrors.INTERNAL_ERROR ≠
      ThrownValue.provider nonNumericCodeError := by
  decide

/-- Helper for C4: the table lookup at a value that is not a number always
yields the internal-error sentinel (strict equality with a number fails). -/
theorem codeToError_of_non_num (v : JsValue) (h : ∀ n : Int, v ≠ JsValue.num n) :
    codeToError v = PetraApiErrors.INTERNAL_ERROR := by
  cases v with
  | num n => exact absurd rfl (h n)
  | str s => rfl
  | undefined => rfl
  | nan => rfl

/-- C4 (amended): an error exposing a `code` property of any type is translated
through the error table — a numeric code through the table lookup, a
non-numeric code to `INTERNAL_ERROR` — while an error without a `code`
property is re-thrown unchanged. -/
theorem remapPetraError_spec (e : ProviderError) :
    (∀ n : Int, e.code = some (JsValue.num n) →
       remapPetraError e = ThrownValue.petra (codeToError (JsValue.num n))) ∧
    (e.code = none → remapPetraError e = ThrownValue.provider e) ∧
    (∀ v : JsValue, e.code = some v → (∀ n : Int, v ≠ JsValue.num n) →
       remapPetraError e = ThrownValue.petra PetraApiErrors.INTERNAL_ERROR) := by
  refine ⟨?_, ?_, ?_⟩
  · intro n hc
    simp [remapPetraError, hc]
  · intro hc
    simp [remapPetraError, hc]
  · intro v hc hv
    simp [remapPetraError, hc, codeToError_of_non_num v hv]

/-- Witness for C4: the three clauses of `remapPetraError_spec` at concrete
errors with a numeric code, no code, and a string code. -/
theorem remapPetraError_spec_witness :
    remapPetraError ⟨some (JsValue.num 4100), true, "x"⟩ =
      ThrownValue.petra (codeToError (JsValue.num 4100)) ∧
    remapPetraError ⟨none, true, "x"⟩ =
      ThrownValue.provider ⟨none, true, "x"⟩ ∧
    remapPetraError ⟨some (JsValue.str "oops"), true, "x"⟩ =
      ThrownValue.petra PetraApiErrors.INTERNAL_ERROR :=
  ⟨(remapPetraError_spec ⟨some (JsValue.num 4100), true, "x"⟩).1 4100 rfl,
   (remapPetraError_spec ⟨none, true, "x"⟩).2.1 rfl,
   (remapPetraError_spec ⟨some (JsValue.str "oops"), true, "x"⟩).2.2
     (JsValue.str "oops") rfl (fun _ hh => JsValue.noConfusion hh)⟩

/-- C5 counterexample: an account-change event lacking a public key is handed
to the callback exactly as delivered and no internal `connect()` happens,
contrary to the claim that the facade first reconnects and forwards freshly
fetched account info. -/
theorem onAccountChange_no_reconnect_cex :
    (AccountInfo.mk "0xabc" none).publicKey = none ∧
    PetraWallet.onAccountChangeDelivery ⟨"0xabc", none⟩ =
      ⟨false, ⟨"0xabc", none⟩⟩ :=
  ⟨rfl, rfl⟩

/-- C5 (amended): `onAccountChange` registers the given callback with the
provider unchanged, so every event — with or without a public key — is
forwarded to the callback as-is and `connect()` is never invoked internally. -/
theorem onAccountChange_forwards_event_unchanged (event : AccountInfo) :
    PetraWallet.onAccountChangeDelivery event =
      { connectInvoked := false, callbackArgument := event } :=
  rfl

/-- C8: `connect()` throws the plain `"Petra Address Info Error"` string when
the provider resolves to no address, `account()` throws
`"Petra Account Error"` when the provider resolves to nothing, and both return
the provider's value unchanged otherwise. -/
theorem connect_account_empty_result (a : AccountInfo) :
    PetraWallet.connect (.ok none) =
      .error (.jsString "Petra Address Info Error") ∧
    PetraWallet.connect (.ok (some a)) = .ok a ∧
    PetraWallet.account (.ok none) =
      .error (.jsString "Petra Account Error") ∧
    PetraWallet.account (.ok (some a)) = .ok a :=
  ⟨rfl, rfl, rfl, rfl⟩

/-- A provider whose `signMessage` always succeeds, used to exhibit that
validation failures never reach the provider. -/
def signMessageOkProvider :
    SignMessageInput → Except ProviderError SignMessageResponse :=
  fun _ => .ok ⟨"sig"⟩

/-- C9 counterexample: an object payload whose `nonce` property is present but
equal to the empty string is rejected with the invalid-payload error and the
provider is never invoked, contrary to the claim that every object input with
a nonce is forwarded — the source tests `!message.nonce`, i.e. truthiness. -/
theorem signMessage_empty_nonce_cex :
    isUndefined (JsValue.str "") = false ∧
    PetraWallet.signMessage signMessageOkProvider
        (.obj (JsValue.str "") (JsValue.str "msg")) =
      (.error (.jsString "Petra Invalid signMessage Payload"), false) :=
  ⟨rfl, rfl⟩

/-- C9 (amended): `signMessage` rejects non-object payloads and payloads whose
`nonce` is falsy (absent, `undefined`, empty string, zero) with the
invalid-payload error before the provider is invoked; payloads whose `nonce`
is truthy are forwarded to the provider, whose response is returned and whose
rejection is remapped. -/
theorem signMessage_validation
    (provider : SignMessageInput → Except ProviderError SignMessageResponse)
    (msg : SignMessageInput) :
    (∀ v : JsValue, msg = .nonObject v →
       PetraWallet.signMessage provider msg =
         (.error (.jsString "Petra Invalid signMessage Payload"), false)) ∧
    (∀ nonce m : JsValue, msg = .obj nonce m → truthy nonce = false →
       PetraWallet.signMessage provider msg =
         (.error (.jsString "Petra Invalid signMessage Payload"), false)) ∧
    (∀ nonce m : JsValue, msg = .obj nonce m → truthy nonce = true →
       (PetraWallet.signMessage provider msg).2 = true ∧
       (∀ r, provider msg = .ok r →
          (PetraWallet.signMessage provider msg).1 = .ok r) ∧
       (∀ e, provider msg = .error e →
          (PetraWallet.signMessage provider msg).1 =
            .error (remapPetraError e))) := by
  refine ⟨?_, ?_, ?_⟩
  · intro v h
    subst h
    rfl
  · intro nonce m h ht
    subst h
    simp [PetraWallet.signMessage, ht]
  · intro nonce m h ht
    subst h
    cases hp : provider (.obj nonce m) with
    | ok r =>
      refine ⟨?_, ?_, ?_⟩ <;> simp [PetraWallet.signMessage, ht, hp]
    | error e =>
      refine ⟨?_, ?_, ?_⟩ <;> simp [PetraWallet.signMessage, ht, hp]

/-- Witness for C9: the rejection clause at a numeric payload and the
forwarding clause at a payload with the truthy nonce `"n"`. -/
theorem signMessage_validation_witness :
    PetraWallet.signMessage signMessageOkProvider (.nonObject (JsValue.num 5)) =
      (.error (.jsString "Petra Invalid signMessage Payload"), false) ∧
    (PetraWallet.signMessage signMessageOkProvider
        (.obj (JsValue.str "n") (JsValue.str "m"))).2 = true :=
  ⟨(signMessage_validation signMessageOkProvider
      (.nonObject (JsValue.num 5))).1 (JsValue.num 5) rfl,
   ((signMessage_validation signMessageOkProvider
      (.obj (JsValue.str "n") (JsValue.str "m"))).2.2 (JsValue.str "n")
      (JsValue.str "m") rfl rfl).1⟩

/-- Helper: `codeToError` always returns a member of the frozen table (the
lookup defaults to `INTERNAL_ERROR`, itself an entry). -/
theorem codeToError_mem (v : JsValue) :
    codeToError v ∈ petraApiErrorsValues := by
  unfold codeToError
  cases h : petraApiErrorsValues.find? (fun error => jsStrictEqNum v error.code) with
  | none => decide
  | some e =>
    simpa using List.mem_of_find?_eq_some h

/-- Helper: no table entry carries the compatibility-detection message, so a
structured error produced by the table never looks like the old-Petra
`TypeError`. -/
theorem codeToError_message_ne_unsupported (v : JsValue) :
    ((codeToError v).message == objectPropsUnsupportedMessage) = false := by
  have h := codeToError_mem v
  simp only [petraApiErrorsValues, List.mem_cons, List.mem_singleton,
    List.not_mem_nil, or_false] at h
  rcases h with h | h | h | h | h | h <;> rw [h] <;> decide

/-- Helper: after the `remapPetraError` step, the only rejection that still
passes the `isObjectPropsUnsupportedError` test is the old-Petra `TypeError`
itself (errors with a `code` property become table entries, whose messages
differ). -/
theorem unsupportedThrown_remap (e : ProviderError)
    (h : e ≠ objectPropsUnsupportedTypeError) :
    isObjectPropsUnsupportedThrown (remapPetraError e) = false := by
  obtain ⟨c, inst, msg⟩ := e
  cases c with
  | some v =>
    simp [remapPetraError, isObjectPropsUnsupportedThrown,
      codeToError_message_ne_unsupported]
  | none =>
    cases inst with
    | false =>
      simp [remapPetraError, isObjectPropsUnsupportedThrown,
        isObjectPropsUnsupportedError]
    | true =>
      simp only [remapPetraError, isObjectPropsUnsupportedThrown,
        isObjectPropsUnsupportedError, Bool.true_and]
      rw [beq_eq_false_iff_ne]
      intro hmsg
      exact h (by rw [hmsg]; rfl)

/-- C3: with non-empty options, when the provider rejects the options-wrapped
call with the specific unsupported-object-shape `TypeError`,
`signAndSubmitBCSTransaction` retries exactly once with the bare payload and
no options, emits the non-fatal warning, and returns the retry's result; any
other provider rejection is thrown (after the standard remap step) without a
retry and without a warning. -/
theorem signAndSubmitBCS_options_fallback
    (provider : BCSSubmitCall → Except ProviderError SubmitResult)
    (payload : TransactionPayloadV1) (options : JsObject)
    (hne : areOptionsEmpty (some options) = false) :
    (∀ r : SubmitResult,
       provider (.withOptions payload (remapTransactionOptions options)) =
         .error objectPropsUnsupportedTypeError →
       provider (.bare payload) = .ok r →
       PetraWallet.signAndSubmitBCSTransaction provider payload (some options) =
         (.ok r,
          [.withOptions payload (remapTransactionOptions options), .bare payload],
          true)) ∧
    (∀ e : ProviderError,
       provider (.withOptions payload (remapTransactionOptions options)) =
         .error e →
       e ≠ objectPropsUnsupportedTypeError →
       PetraWallet.signAndSubmitBCSTransaction provider payload (some options) =
         (.error (remapPetraError e),
          [.withOptions payload (remapTransactionOptions options)], false)) := by
  constructor
  · intro r h1 h2
    simp [PetraWallet.signAndSubmitBCSTransaction, hne, h1, h2,
      isObjectPropsUnsupportedThrown, remapPetraError,
      objectPropsUnsupportedTypeError, isObjectPropsUnsupportedError]
  · intro e h1 hne2
    simp [PetraWallet.signAndSubmitBCSTransaction, hne, h1,
      unsupportedThrown_remap e hne2]

/-- Provider used to witness the fallback path of C3: it rejects the
options-wrapped shape with the old-Petra `TypeError` and accepts the bare
payload. -/
def bcsFallbackProvider : BCSSubmitCall → Except ProviderError SubmitResult
  | .withOptions _ _ => .error objectPropsUnsupportedTypeError
  | .bare _ => .ok ⟨"0x1"⟩

/-- Witness for C3: the fallback clause evaluated against
`bcsFallbackProvider` with a non-empty options object. -/
theorem signAndSubmitBCS_options_fallback_witness :
    PetraWallet.signAndSubmitBCSTransaction bcsFallbackProvider ⟨0⟩
        (some [("max_gas_amount", JsValue.str "100")]) =
      (.ok ⟨"0x1"⟩,
       [.withOptions ⟨0⟩
          (remapTransactionOptions [("max_gas_amount", JsValue.str "100")]),
        .bare ⟨0⟩],
       true) :=
  (signAndSubmitBCS_options_fallback bcsFallbackProvider ⟨0⟩
      [("max_gas_amount", JsValue.str "100")] rfl).1 ⟨"0x1"⟩ rfl rfl

/-- Provider that rejects every call carrying an options argument with the
old-Petra `TypeError` and accepts calls without options. -/
def v1OptionsRejectingProvider :
    V1SubmitCall → Except ProviderError SubmitResult :=
  fun c =>
    match c.options with
    | some _ => .error objectPropsUnsupportedTypeError
    | none => .ok ⟨"0x2"⟩

/-- C6 counterexample: on the v1 path of `signAndSubmitTransaction`, a
provider that rejects the options-carrying call with the
unsupported-object-shape error makes the method throw that error after a
single call — no retry without options and no warning happen, although the
same provider would have accepted the optionless call. -/
theorem signAndSubmitTransactionV1_no_retry_cex :
    PetraWallet.signAndSubmitTransactionV1Path v1OptionsRejectingProvider ⟨1⟩
        (some [("max_gas_amount", JsValue.str "5")]) =
      (.error (.provider objectPropsUnsupportedTypeError),
       [⟨⟨1⟩,
         some (remapTransactionOptions [("max_gas_amount", JsValue.str "5")])⟩],
       false) ∧
    v1OptionsRejectingProvider ⟨⟨1⟩, none⟩ = .ok ⟨"0x2"⟩ :=
  ⟨rfl, rfl⟩

/-- C6 (amended): the v1 path of `signAndSubmitTransaction` makes exactly one
provider call, passing the payload and the remapped options as two separate
arguments; it never retries and never warns, and any rejection — including the
unsupported-object-shape error — is remapped and thrown.  The
retry-without-options fallback exists only in `signAndSubmitBCSTransaction`,
whose wrapped argument shape is what old Petra versions actually choke on. -/
theorem signAndSubmitTransactionV1_single_call
    (provider : V1SubmitCall → Except ProviderError SubmitResult)
    (payloadV1 : TransactionPayloadJson) (o : JsObject) :
    (PetraWallet.signAndSubmitTransactionV1Path provider payloadV1
        (some o)).2.1 =
      [⟨payloadV1, some (remapTransactionOptions o)⟩] ∧
    (PetraWallet.signAndSubmitTransactionV1Path provider payloadV1
        (some o)).2.2 = false ∧
    (∀ e : ProviderError,
       provider ⟨payloadV1, some (remapTransactionOptions o)⟩ = .error e →
       (PetraWallet.signAndSubmitTransactionV1Path provider payloadV1
           (some o)).1 =
         .error (remapPetraError e)) := by
  refine ⟨?_, ?_, ?_⟩
  · cases hp : provider ⟨payloadV1, some (remapTransactionOptions o)⟩ <;>
      simp [PetraWallet.signAndSubmitTransactionV1Path, hp]
  · cases hp : provider ⟨payloadV1, some (remapTransactionOptions o)⟩ <;>
      simp [PetraWallet.signAndSubmitTransactionV1Path, hp]
  · intro e he
    simp [PetraWallet.signAndSubmitTransactionV1Path, he]

/-- Witness for C6: the single-call clauses evaluated against
`v1OptionsRejectingProvider`. -/
theorem signAndSubmitTransactionV1_single_call_witness :
    (PetraWallet.signAndSubmitTransactionV1Path v1OptionsRejectingProvider ⟨1⟩
        (some [("max_gas_amount", JsValue.str "5")])).1 =
      .error (remapPetraError objectPropsUnsupportedTypeError) :=
  (signAndSubmitTransactionV1_single_call v1OptionsRejectingProvider ⟨1⟩
      [("max_gas_amount", JsValue.str "5")]).2.2
    objectPropsUnsupportedTypeError rfl

/-- C2: in the v2 branch of `signTransaction`, a present fee-payer address
selects the `FeePayerRawTransaction` variant even when a non-empty
secondary-signer list is also present (fee payer takes precedence over
multi-agent), and the `asFeePayer` flag makes the facade await the internal
`account()` call and use the connected account's address as the fee payer. -/
theorem signTransaction_feePayer_selection :
    (∀ (tx : AnyRawTransactionV2) (acct : AccountInfo) (fp : AccountAddressV2)
       (v : RawTxnVariantV1 × Bool),
       tx.feePayerAddress = some fp →
       PetraWallet.signTransactionV2 tx false acct = some v →
       ∃ t s p, v.1 = RawTxnVariantV1.feePayer t s p) ∧
    (∀ (tx : AnyRawTransactionV2) (acct : AccountInfo)
       (v : RawTxnVariantV1 × Bool),
       PetraWallet.signTransactionV2 tx true acct = some v →
       v.2 = true ∧
       ∃ payerBytes, accountAddressFromHex acct.address = some payerBytes ∧
         ∃ t s, v.1 = RawTxnVariantV1.feePayer t s ⟨payerBytes⟩) := by
  constructor
  · rintro ⟨raw, sec, fpA⟩ acct fp v hfp hv
    obtain rfl : fpA = some fp := hfp
    cases sec with
    | none =>
      cases hca : convertV2toV1Address fp with
      | none => simp [PetraWallet.signTransactionV2, hca] at hv
      | some a =>
        simp [PetraWallet.signTransactionV2, hca] at hv
        rw [← hv]
        exact ⟨_, _, _, rfl⟩
    | some addrs =>
      cases hm : List.mapM.loop convertV2toV1Address addrs [] with
      | none => simp [PetraWallet.signTransactionV2, hm] at hv
      | some converted =>
        cases hca : convertV2toV1Address fp with
        | none => simp [PetraWallet.signTransactionV2, hm, hca] at hv
        | some a =>
          simp [PetraWallet.signTransactionV2, hm, hca] at hv
          rw [← hv]
          exact ⟨_, _, _, rfl⟩
  · rintro ⟨raw, sec, fpA⟩ acct v hv
    cases sec with
    | none =>
      cases hax : accountAddressFromHex acct.address with
      | none => simp [PetraWallet.signTransactionV2, hax] at hv
      | some payerBytes =>
        simp [PetraWallet.signTransactionV2, hax] at hv
        rw [← hv]
        exact ⟨rfl, payerBytes, rfl, _, _, rfl⟩
    | some addrs =>
      cases hm : List.mapM.loop convertV2toV1Address addrs [] with
      | none => simp [PetraWallet.signTransactionV2, hm] at hv
      | some converted =>
        cases hax : accountAddressFromHex acct.address with
        | none => simp [PetraWallet.signTransactionV2, hm, hax] at hv
        | some payerBytes =>
          simp [PetraWallet.signTransactionV2, hm, hax] at hv
          rw [← hv]
          exact ⟨rfl, payerBytes, rfl, _, _, rfl⟩

/-- A well-formed (32-byte) v2 secondary-signer address used by the C2
witness. -/
def sampleSecondaryAddr : AccountAddressV2 :=
  ⟨List.replicate addressByteLength 7⟩

/-- A well-formed (32-byte) v2 fee-payer address used by the C2 witness. -/
def sampleFeePayerAddr : AccountAddressV2 :=
  ⟨List.replicate addressByteLength 9⟩

/-- A v2 transaction carrying both a fee-payer address and a non-empty
secondary-signer list. -/
def sampleFeePayerTxn : AnyRawTransactionV2 :=
  ⟨⟨[1, 2]⟩, some [sampleSecondaryAddr], some sampleFeePayerAddr⟩

/-- The connected account used by the C2 witness. -/
def sampleAccount : AccountInfo := ⟨"0x1", some "pubkey"⟩

/-- The variant `signTransaction` builds for `sampleFeePayerTxn` without the
`asFeePayer` flag. -/
def sampleFeePayerResult : RawTxnVariantV1 × Bool :=
  (RawTxnVariantV1.feePayer ⟨[1, 2]⟩ [⟨List.replicate addressByteLength 7⟩]
     ⟨List.replicate addressByteLength 9⟩, false)

/-- The variant `signTransaction` builds for `sampleFeePayerTxn` with the
`asFeePayer` flag: the fee payer is the decoded, left-padded address of the
connected account and the `account()` call was awaited. -/
def sampleAsFeePayerResult : RawTxnVariantV1 × Bool :=
  (RawTxnVariantV1.feePayer ⟨[1, 2]⟩ [⟨List.replicate addressByteLength 7⟩]
     ⟨List.replicate 31 0 ++ [1]⟩, true)

/-- Witness for C2: both clauses evaluated on `sampleFeePayerTxn` — a
transaction with a fee payer and a non-empty secondary-signer list. -/
theorem signTransaction_feePayer_selection_witness :
    (∃ t s p, sampleFeePayerResult.1 = RawTxnVariantV1.feePayer t s p) ∧
    sampleAsFeePayerResult.2 = true :=
  ⟨signTransaction_feePayer_selection.1 sampleFeePayerTxn sampleAccount
     sampleFeePayerAddr sampleFeePayerResult rfl (by decide),
   (signTransaction_feePayer_selection.2 sampleFeePayerTxn sampleAccount
     sampleAsFeePayerResult (by decide)).1⟩

/-- C10: a v2 transaction with `asFeePayer` false, no fee-payer address, and a
`secondarySignerAddresses` field that is present but an empty array selects
the `MultiAgentRawTransaction` variant with an empty signer list — the
dispatch tests presence of the list, not non-emptiness — rather than the
plain `RawTransaction` variant. -/
theorem signTransaction_empty_secondary_multiAgent
    (raw : RawTransactionV2) (acct : AccountInfo) :
    PetraWallet.signTransactionV2 ⟨raw, some [], none⟩ false acct =
      some (RawTxnVariantV1.multiAgent (convertV2toV1RawTransaction raw) [],
        false) :=
  rfl

/-- C7 (the conversion module is absent from the listing; modelled from the
spec): converting a value from the legacy v1 shape to the current v2 shape and
back yields a value byte-identical to the original, for addresses (whose byte
width is the expected 32), authenticators, and raw transactions, and each
conversion only copies the canonical byte sequence — it never recomputes the
underlying cryptographic material. -/
theorem conversion_roundtrip_identity :
    (∀ x : AccountAddressV1, x.address.length = addressByteLength →
       (convertV1toV2Address x).bind convertV2toV1Address = some x) ∧
    (∀ (x : AccountAddressV1) (y : AccountAddressV2),
       convertV1toV2Address x = some y → y.data = x.address) ∧
    (∀ x : AccountAuthenticatorV1,
       convertV2toV1Authenticator (convertV1toV2Authenticator x) = x ∧
       (convertV1toV2Authenticator x).bytes = x.bytes) ∧
    (∀ x : RawTransactionV1,
       convertV2toV1RawTransaction (convertV1toV2RawTransaction x) = x ∧
       (convertV1toV2RawTransaction x).bytes = x.bytes) := by
  refine ⟨?_, ?_, fun x => ⟨rfl, rfl⟩, fun x => ⟨rfl, rfl⟩⟩
  · intro x h
    obtain ⟨l⟩ := x
    simp only [AccountAddressV1.address] at h
    simp [convertV1toV2Address, convertV2toV1Address, h]
  · intro x y h
    obtain ⟨l⟩ := x
    simp only [convertV1toV2Address] at h
    split at h
    · cases h
      rfl
    · cases h

/-- Witness for C7: the address round-trip and the byte-preservation clause at
the all-zero 32-byte address. -/
theorem conversion_roundtrip_identity_witness :
    (convertV1toV2Address ⟨List.replicate 32 0⟩).bind convertV2toV1Address =
      some ⟨List.replicate 32 0⟩ ∧
    (⟨List.replicate 32 0⟩ : AccountAddressV2).data = List.replicate 32 0 :=
  ⟨conversion_roundtrip_identity.1 ⟨List.replicate 32 0⟩ (by decide),
   conversion_roundtrip_identity.2.1 ⟨List.replicate 32 0⟩
     ⟨List.replicate 32 0⟩ (by decide)⟩
